import Mathlib

/-!
# Verification of the dot-engine frame driver

Shallow embedding of `src/dot-engine/src/main.rs` (the `Renderer` struct, its
`new`, `run` and `recreate_swapchain` methods, and the redraw handling in
`main`) and of `src/dot-engine/shader/src/lib.rs` (the compute kernel).

External Vulkan outcomes (acquisition results, flush results, swapchain
recreation results) are parameters of the embedded step function, so each
branch of the source is a branch of the Lean definition.  A Rust `panic!` /
`unwrap` / `expect` failure is modelled as `Except.error` with the panic
message.
-/

namespace DotEngine

/-- Mirrors `glam::UVec3` as used by the shader kernel. -/
structure UVec3 where
  x : Nat
  y : Nat
  z : Nat
  deriving DecidableEq, Repr

/-- The compute kernel `main` of `src/dot-engine/shader/src/lib.rs`:
given `num_workgroups` and `global_invocation_id` it writes the color
`(id.x / work_groups.x, id.y / work_groups.y, 0)` at pixel `id.xy()`.
Color channels are modelled as exact rationals. -/
def shaderMain (work_groups : UVec3) (id : UVec3) : ℚ × ℚ × ℚ :=
  ((id.x : ℚ) / (work_groups.x : ℚ), (id.y : ℚ) / (work_groups.y : ℚ), 0)

/-- The image contents produced by dispatching `shaderMain` over a grid of
`grid.x × grid.y × grid.z` workgroups of size 1×1×1 (`threads(1, 1)`):
the invocation with `global_invocation_id = (x, y, 0)` is the only writer
of pixel `(x, y)`, and `num_workgroups = grid`. -/
def dispatchImage (grid : UVec3) (x y : Nat) : ℚ × ℚ × ℚ :=
  shaderMain grid ⟨x, y, 0⟩

/-- `vulkano::format::Format` restricted to what the program uses. -/
inductive Format where
  | B8G8R8A8_UNORM
  | otherFormat
  deriving DecidableEq, Repr

/-- `vulkano::image::ImageUsage` restricted to what the program uses. -/
inductive ImageUsage where
  | STORAGE
  | otherUsage
  deriving DecidableEq, Repr

/-- `vulkano::swapchain::CompositeAlpha` restricted to what the program uses. -/
inductive CompositeAlpha where
  | Opaque
  | otherAlpha
  deriving DecidableEq, Repr

/-- The fields of `vulkano::swapchain::SwapchainCreateInfo` that the program
sets when it creates or recreates the swapchain. -/
structure SwapchainCreateInfo where
  min_image_count : Nat
  image_format : Format
  image_extent : Nat × Nat
  image_usage : ImageUsage
  composite_alpha : CompositeAlpha
  deriving DecidableEq, Repr

/-- The swapchain: its creation parameters plus a generation counter that
increments on every rebuild (each `Swapchain::recreate` yields a fresh
swapchain object). -/
structure Swapchain where
  info : SwapchainCreateInfo
  generation : Nat
  deriving DecidableEq, Repr

/-- A boxed `GpuFuture` as stored in `previous_frame_end`: either the result
of `vulkano::sync::now(device)` or the fence future of a submitted frame. -/
inductive GpuFut where
  | nowFut
  | fenceFut (generation : Nat) (image_index : Nat)
  deriving DecidableEq, Repr

/-- The `Renderer` struct (state relevant to the frame driver).
`imagesGen` is the swapchain generation the `images` vector belongs to and
`numImages` its length. -/
structure Renderer where
  swapchain : Swapchain
  imagesGen : Nat
  numImages : Nat
  recreate_swapchain : Bool
  previous_frame_end : Option GpuFut
  deriving DecidableEq, Repr

/-- Result of `vulkano::swapchain::acquire_next_image` after
`map_err(Validated::unwrap)`, as matched by `Renderer::run`. -/
inductive AcquireResult where
  | ok (image_index : Nat) (suboptimal : Bool)
  | outOfDate
  | otherErr
  deriving DecidableEq, Repr

/-- Result of `Swapchain::recreate` (the `.expect` panics on error). -/
inductive RecreateResult where
  | ok
  | err
  deriving DecidableEq, Repr

/-- Result of `then_signal_fence_and_flush()` after
`map_err(Validated::unwrap)`, as matched by `Renderer::run`. -/
inductive FlushResult where
  | ok
  | outOfDate
  | otherErr
  deriving DecidableEq, Repr

/-- Observable effects of one `Renderer::run` call: how many dispatch
submissions and present requests were chained, the workgroup grid of the
dispatch (if any), the swapchain generation the used image index belongs to
(if any), and console diagnostics printed without aborting. -/
structure RunEffects where
  submissions : Nat
  presents : Nat
  dispatchedGrid : Option UVec3
  usedImage : Option (Nat × Nat)
  logs : List String
  deriving DecidableEq, Repr

/-- Effects of an iteration that submitted nothing. -/
def RunEffects.none : RunEffects :=
  { submissions := 0, presents := 0, dispatchedGrid := Option.none,
    usedImage := Option.none, logs := [] }

/-- The `if self.recreate_swapchain { ... }` block of `Renderer::run`
(lines 259–271): rebuild the swapchain at `image_extent` keeping every other
field of `self.swapchain.create_info()`, replace the images, clear the flag.
The `.expect("failed to recreate swapchain")` panic is `Except.error`. -/
def Renderer.rebuildIfDirty (self : Renderer) (image_extent : Nat × Nat)
    (rec : RecreateResult) : Except String Renderer :=
  if self.recreate_swapchain then
    match rec with
    | RecreateResult.err => Except.error "failed to recreate swapchain"
    | RecreateResult.ok =>
      Except.ok { self with
        swapchain :=
          { info := { self.swapchain.info with image_extent := image_extent },
            generation := self.swapchain.generation + 1 },
        imagesGen := self.swapchain.generation + 1,
        recreate_swapchain := false }
  else Except.ok self

/-- Lines 289–358 of `Renderer::run`: bind the acquired image as the
kernel's output, record one command buffer with a single
`dispatch([image_extent[0], image_extent[1], 1])`, chain it after
`previous_frame_end.take().unwrap()` joined with the acquire future, request
present, and `then_signal_fence_and_flush()`; then the three-way match on
the flush result. -/
def Renderer.submitAndPresent (self : Renderer) (image_extent : Nat × Nat)
    (image_index : Nat) (flush : FlushResult) : Renderer × RunEffects :=
  let grid : UVec3 := ⟨image_extent.1, image_extent.2, 1⟩
  let effects : RunEffects :=
    { submissions := 1, presents := 1,
      dispatchedGrid := Option.some grid,
      usedImage := Option.some (self.imagesGen, image_index),
      logs := [] }
  -- `self.previous_frame_end.take()` leaves `None`; every arm below stores a
  -- replacement.
  match flush with
  | FlushResult.ok =>
    ({ self with
       previous_frame_end :=
         Option.some (GpuFut.fenceFut self.swapchain.generation image_index) },
     effects)
  | FlushResult.outOfDate =>
    ({ self with
       recreate_swapchain := true,
       previous_frame_end := Option.some GpuFut.nowFut },
     effects)
  | FlushResult.otherErr =>
    ({ self with
       previous_frame_end := Option.some GpuFut.nowFut },
     { effects with logs := ["failed to flush future"] })

/-- `Renderer::run` from `src/dot-engine/src/main.rs` (lines 252–359).
The environment outcomes `acq`, `rec`, `flush` stand for the results the
Vulkan layer returns at the acquire, recreate and flush call sites.
`Except.error msg` models a process abort (panic) with message `msg`. -/
def Renderer.run (self : Renderer) (image_extent : Nat × Nat)
    (acq : AcquireResult) (rec : RecreateResult) (flush : FlushResult) :
    Except String (Renderer × RunEffects) :=
  -- `self.previous_frame_end.as_mut().unwrap().cleanup_finished();`
  match self.previous_frame_end with
  | Option.none => Except.error "called `Option::unwrap()` on a `None` value"
  | Option.some _prev =>
    match self.rebuildIfDirty image_extent rec with
    | Except.error e => Except.error e
    | Except.ok self =>
      -- `match acquire_next_image(...) { ... }`
      match acq with
      | AcquireResult.outOfDate =>
        Except.ok ({ self with recreate_swapchain := true }, RunEffects.none)
      | AcquireResult.otherErr =>
        Except.error "failed to acquire next image"
      | AcquireResult.ok image_index suboptimal =>
        let self :=
          if suboptimal then { self with recreate_swapchain := true } else self
        -- `ImageView::new_default(self.images[image_index as usize].clone())`
        if image_index < self.numImages then
          Except.ok (self.submitAndPresent image_extent image_index flush)
        else
          Except.error "index out of bounds"

/-- `Renderer::recreate_swapchain(&mut self, value: bool)`
(`src/dot-engine/src/main.rs` lines 361–363); named `setRecreateSwapchain`
because the field projection already carries the source name. -/
def Renderer.setRecreateSwapchain (self : Renderer) (value : Bool) : Renderer :=
  { self with recreate_swapchain := value }

/-- The `WindowEvent::RedrawRequested` arm of `main`
(`src/dot-engine/src/main.rs` lines 37–43): read the window's extent, return
without touching the renderer if either component is zero, otherwise call
`renderer.run`. -/
def handleRedraw (renderer : Renderer) (image_extent : Nat × Nat)
    (acq : AcquireResult) (rec : RecreateResult) (flush : FlushResult) :
    Except String (Renderer × RunEffects) :=
  -- `if image_extent.contains(&0) { return; }`
  if image_extent.1 = 0 ∨ image_extent.2 = 0 then
    Except.ok (renderer, RunEffects.none)
  else
    renderer.run image_extent acq rec flush

/-- The renderer state produced by `Renderer::new`
(`src/dot-engine/src/main.rs` lines 72–250): the swapchain is created with
`min_image_count = surface min_image_count max 2`, format `B8G8R8A8_UNORM`,
the window's extent, `STORAGE` usage and `Opaque` composite alpha;
`recreate_swapchain = false`; `previous_frame_end = Some(now(device))`.
`surfaceMinImageCount` and `nImages` stand for what the Vulkan layer
reports/produces. -/
def Renderer.new (initial_extent : Nat × Nat)
    (surfaceMinImageCount : Nat) (nImages : Nat) : Renderer :=
  { swapchain :=
      { info :=
          { min_image_count := max surfaceMinImageCount 2,
            image_format := Format.B8G8R8A8_UNORM,
            image_extent := initial_extent,
            image_usage := ImageUsage.STORAGE,
            composite_alpha := CompositeAlpha.Opaque },
        generation := 0 },
    imagesGen := 0,
    numImages := nImages,
    recreate_swapchain := false,
    previous_frame_end := Option.some GpuFut.nowFut }

/-- Number of in-flight tokens (`previous_frame_end` futures) the renderer
holds: the `Option` field holds at most one. -/
def Renderer.tokens (self : Renderer) : Nat :=
  match self.previous_frame_end with
  | Option.none => 0
  | Option.some _ => 1

/-! ## Physical-device selection (`Renderer::new`, lines 100–125) -/

/-- `vulkano::device::physical::PhysicalDeviceType` as matched by the
selection key (the wildcard arm stands for any other variant). -/
inductive PhysicalDeviceType where
  | DiscreteGpu
  | IntegratedGpu
  | VirtualGpu
  | Cpu
  | Other
  | Unknown
  deriving DecidableEq, Repr

/-- The `min_by_key` ranking of `Renderer::new`. -/
def deviceTypeRank : PhysicalDeviceType → Nat
  | PhysicalDeviceType.DiscreteGpu => 0
  | PhysicalDeviceType.IntegratedGpu => 1
  | PhysicalDeviceType.VirtualGpu => 2
  | PhysicalDeviceType.Cpu => 3
  | PhysicalDeviceType.Other => 4
  | PhysicalDeviceType.Unknown => 5

/-- One queue family of a physical device: whether its flags intersect
`QueueFlags::COMPUTE`, and `surface_support(i, &surface).unwrap_or(false)`
for the target surface. -/
structure QueueFamily where
  hasCompute : Bool
  surfaceSupport : Bool
  deriving DecidableEq, Repr

/-- A physical device as seen by the selection code: whether its supported
extensions contain the required `device_extensions`, its queue families in
order, and its device type. -/
structure PhysicalDevice where
  supportsExtensions : Bool
  queueFamilies : List QueueFamily
  deviceType : PhysicalDeviceType
  deriving DecidableEq, Repr

/-- The `position(...)` search inside the `filter_map`: the first queue
family index with compute support and presentation support. -/
def findQueueFamilyIndex (p : PhysicalDevice) : Option Nat :=
  p.queueFamilies.findIdx? fun q => q.hasCompute && q.surfaceSupport

/-- The devices surviving `filter` (extension support) and `filter_map`
(a compute+present queue family), paired with the found family index. -/
def qualifyingDevices (devices : List PhysicalDevice) :
    List (PhysicalDevice × Nat) :=
  (devices.filter fun p => p.supportsExtensions).filterMap fun p =>
    (findQueueFamilyIndex p).map fun i => (p, i)

/-- One comparison step of Rust's `Iterator::min_by_key`: a later element
replaces the current best only on a strictly smaller key, so the first
element of minimum key wins. -/
def pickMin (best y : PhysicalDevice × Nat) : PhysicalDevice × Nat :=
  if deviceTypeRank y.1.deviceType < deviceTypeRank best.1.deviceType then y
  else best

/-- Rust's `Iterator::min_by_key` over the device-type ranking. -/
def minByDeviceRank : List (PhysicalDevice × Nat) → Option (PhysicalDevice × Nat)
  | [] => Option.none
  | x :: xs => Option.some (xs.foldl pickMin x)

/-- The whole selection pipeline of `Renderer::new` (lines 100–125);
`Option.none` models the `"no suitable physical device found"` panic. -/
def selectPhysicalDevice (devices : List PhysicalDevice) :
    Option (PhysicalDevice × Nat) :=
  minByDeviceRank (qualifyingDevices devices)

/-- Whether an embedded call ended in a process abort (a Rust panic). -/
def aborts (x : Except String (Renderer × RunEffects)) : Bool :=
  match x with
  | Except.error _ => true
  | Except.ok _ => false

/-! ## Sample states used by witnesses and counterexamples -/

/-- A renderer as produced by `Renderer::new` on a 3×3 window whose surface
reports `min_image_count = 2` and yields 3 swapchain images. -/
def sampleRenderer : Renderer := Renderer.new (3, 3) 2 3

/-! ## Concrete states reached by sample runs (used in witnesses and
counterexamples) -/

/-- `sampleRenderer` after `recreate_swapchain(true)`. -/
def dirtyRenderer : Renderer := sampleRenderer.setRecreateSwapchain true

/-- `sampleRenderer` after a clean presented frame on image 1 of a 4×2
extent. -/
def presentedRenderer : Renderer :=
  { sampleRenderer with previous_frame_end := Option.some (GpuFut.fenceFut 0 1) }

/-- The effects of that clean 4×2 frame. -/
def presentedEffects : RunEffects :=
  { submissions := 1, presents := 1, dispatchedGrid := Option.some ⟨4, 2, 1⟩,
    usedImage := Option.some (0, 1), logs := [] }

/-- `sampleRenderer` after a suboptimal-but-presented frame on image 0 of a
3×3 extent. -/
def suboptimalRenderer : Renderer :=
  { sampleRenderer with
    recreate_swapchain := true,
    previous_frame_end := Option.some (GpuFut.fenceFut 0 0) }

/-- The effects of that suboptimal 3×3 frame. -/
def suboptimalEffects : RunEffects :=
  { submissions := 1, presents := 1, dispatchedGrid := Option.some ⟨3, 3, 1⟩,
    usedImage := Option.some (0, 0), logs := [] }

/-- `dirtyRenderer` after a redraw at extent 7×5: swapchain rebuilt at the
new extent (generation 1), frame presented on image 0. -/
def rebuiltRenderer : Renderer :=
  { swapchain :=
      { info :=
          { min_image_count := 2, image_format := Format.B8G8R8A8_UNORM,
            image_extent := (7, 5), image_usage := ImageUsage.STORAGE,
            composite_alpha := CompositeAlpha.Opaque },
        generation := 1 },
    imagesGen := 1, numImages := 3, recreate_swapchain := false,
    previous_frame_end := Option.some (GpuFut.fenceFut 1 0) }

/-- The effects of that rebuilt 7×5 frame. -/
def rebuiltEffects : RunEffects :=
  { submissions := 1, presents := 1, dispatchedGrid := Option.some ⟨7, 5, 1⟩,
    usedImage := Option.some (1, 0), logs := [] }

/-- A device list for the selection witness: a qualifying CPU device, a
qualifying discrete GPU whose first queue family lacks compute, and a
discrete GPU without the required extensions. -/
def sampleDevices : List PhysicalDevice :=
  [ ⟨true, [⟨true, true⟩], PhysicalDeviceType.Cpu⟩,
    ⟨true, [⟨false, true⟩, ⟨true, true⟩], PhysicalDeviceType.DiscreteGpu⟩,
    ⟨false, [⟨true, true⟩], PhysicalDeviceType.DiscreteGpu⟩ ]

/-- The device the selection pipeline picks from `sampleDevices`. -/
def sampleSelected : PhysicalDevice :=
  ⟨true, [⟨false, true⟩, ⟨true, true⟩], PhysicalDeviceType.DiscreteGpu⟩

/-! ## Helper lemmas about the pieces of `Renderer::run` -/

theorem rebuildIfDirty_ok_prev {r r₁ : Renderer} {e : Nat × Nat}
    {rec : RecreateResult} (h : r.rebuildIfDirty e rec = Except.ok r₁) :
    r₁.previous_frame_end = r.previous_frame_end := by
  unfold Renderer.rebuildIfDirty at h
  split at h
  · cases rec
    · simp only [Except.ok.injEq] at h
      subst h
      rfl
    · exact Except.noConfusion h
  · simp only [Except.ok.injEq] at h
    subst h
    rfl

theorem rebuildIfDirty_ok_numImages {r r₁ : Renderer} {e : Nat × Nat}
    {rec : RecreateResult} (h : r.rebuildIfDirty e rec = Except.ok r₁) :
    r₁.numImages = r.numImages := by
  unfold Renderer.rebuildIfDirty at h
  split at h
  · cases rec
    · simp only [Except.ok.injEq] at h
      subst h
      rfl
    · exact Except.noConfusion h
  · simp only [Except.ok.injEq] at h
    subst h
    rfl

theorem rebuildIfDirty_ok_info {r r₁ : Renderer} {e : Nat × Nat}
    {rec : RecreateResult} (h : r.rebuildIfDirty e rec = Except.ok r₁) :
    r₁.swapchain.info.min_image_count = r.swapchain.info.min_image_count ∧
    r₁.swapchain.info.image_format = r.swapchain.info.image_format ∧
    r₁.swapchain.info.image_usage = r.swapchain.info.image_usage ∧
    r₁.swapchain.info.composite_alpha = r.swapchain.info.composite_alpha := by
  unfold Renderer.rebuildIfDirty at h
  split at h
  · cases rec
    · simp only [Except.ok.injEq] at h
      subst h
      exact ⟨rfl, rfl, rfl, rfl⟩
    · exact Except.noConfusion h
  · simp only [Except.ok.injEq] at h
    subst h
    exact ⟨rfl, rfl, rfl, rfl⟩

theorem rebuildIfDirty_dirty_ok {r r₁ : Renderer} {e : Nat × Nat}
    {rec : RecreateResult} (hd : r.recreate_swapchain = true)
    (h : r.rebuildIfDirty e rec = Except.ok r₁) :
    r₁.swapchain.info.image_extent = e ∧ r₁.recreate_swapchain = false := by
  unfold Renderer.rebuildIfDirty at h
  rw [hd] at h
  simp only [if_true] at h
  cases rec
  · simp only [Except.ok.injEq] at h
    subst h
    exact ⟨rfl, rfl⟩
  · exact Except.noConfusion h

theorem rebuildIfDirty_error_msg {r : Renderer} {e : Nat × Nat}
    {rec : RecreateResult} {msg : String}
    (h : r.rebuildIfDirty e rec = Except.error msg) :
    msg = "failed to recreate swapchain" := by
  unfold Renderer.rebuildIfDirty at h
  split at h
  · cases rec
    · exact Except.noConfusion h
    · simp only [Except.error.injEq] at h
      exact h.symm
  · exact Except.noConfusion h

theorem rebuildIfDirty_clean {r : Renderer} {e : Nat × Nat}
    {rec : RecreateResult} (hd : r.recreate_swapchain = false) :
    r.rebuildIfDirty e rec = Except.ok r := by
  unfold Renderer.rebuildIfDirty
  rw [hd]
  simp

theorem submitAndPresent_effects (r : Renderer) (e : Nat × Nat) (idx : Nat)
    (f : FlushResult) :
    (r.submitAndPresent e idx f).2.submissions = 1 ∧
    (r.submitAndPresent e idx f).2.presents = 1 ∧
    (r.submitAndPresent e idx f).2.dispatchedGrid = Option.some ⟨e.1, e.2, 1⟩ := by
  cases f <;> exact ⟨rfl, rfl, rfl⟩

theorem submitAndPresent_state (r : Renderer) (e : Nat × Nat) (idx : Nat)
    (f : FlushResult) :
    (r.submitAndPresent e idx f).1.swapchain = r.swapchain ∧
    (r.submitAndPresent e idx f).1.previous_frame_end.isSome = true ∧
    (r.submitAndPresent e idx f).1.recreate_swapchain =
      (r.recreate_swapchain || decide (f = FlushResult.outOfDate)) := by
  cases f <;> simp [Renderer.submitAndPresent]

/-- Master inversion: what a successful `Renderer::run` call must have done. -/
theorem run_ok_elim {r : Renderer} {e : Nat × Nat} {a : AcquireResult}
    {rec : RecreateResult} {f : FlushResult} {r' : Renderer} {eff : RunEffects}
    (h : r.run e a rec f = Except.ok (r', eff)) :
    r.previous_frame_end.isSome = true ∧
    ∃ r₁, r.rebuildIfDirty e rec = Except.ok r₁ ∧
      ((a = AcquireResult.outOfDate ∧
          r' = { r₁ with recreate_swapchain := true } ∧ eff = RunEffects.none) ∨
       (∃ idx subopt, a = AcquireResult.ok idx subopt ∧
          idx < r₁.numImages ∧
          r' = ((if subopt then { r₁ with recreate_swapchain := true }
                 else r₁).submitAndPresent e idx f).1 ∧
          eff = ((if subopt then { r₁ with recreate_swapchain := true }
                  else r₁).submitAndPresent e idx f).2)) := by
  unfold Renderer.run at h
  split at h
  · exact Except.noConfusion h
  · refine ⟨by simp [*], ?_⟩
    split at h
    · exact Except.noConfusion h
    · rename_i r₁ hreb
      refine ⟨r₁, hreb, ?_⟩
      cases a with
      | outOfDate =>
        simp only [Except.ok.injEq, Prod.mk.injEq] at h
        exact Or.inl ⟨rfl, h.1.symm, h.2.symm⟩
      | otherErr => exact Except.noConfusion h
      | ok idx subopt =>
        refine Or.inr ⟨idx, subopt, rfl, ?_⟩
        by_cases hs : subopt = true
        · subst hs
          simp only [if_true] at h ⊢
          split at h
          · simp only [Except.ok.injEq] at h
            rw [Prod.ext_iff] at h
            exact ⟨by assumption, h.1.symm, h.2.symm⟩
          · exact Except.noConfusion h
        · rw [Bool.not_eq_true] at hs
          subst hs
          simp only [Bool.false_eq_true, if_false] at h ⊢
          split at h
          · simp only [Except.ok.injEq] at h
            rw [Prod.ext_iff] at h
            exact ⟨by assumption, h.1.symm, h.2.symm⟩
          · exact Except.noConfusion h

theorem tokens_of_isSome {s : Renderer}
    (h : s.previous_frame_end.isSome = true) : s.tokens = 1 := by
  unfold Renderer.tokens
  cases hp : s.previous_frame_end with
  | none => rw [hp] at h; exact absurd h (by simp)
  | some p => rfl

theorem foldl_pickMin_mem :
    ∀ (xs : List (PhysicalDevice × Nat)) (x : PhysicalDevice × Nat),
      xs.foldl pickMin x ∈ x :: xs
  | [], _ => List.mem_singleton.mpr rfl
  | z :: zs, x => by
    simp only [List.foldl_cons]
    have h := foldl_pickMin_mem zs (pickMin x z)
    rcases List.mem_cons.mp h with h | h
    · rw [h]
      unfold pickMin
      split
      · exact List.mem_cons_of_mem _ (List.mem_cons_self _ _)
      · exact List.mem_cons_self _ _
    · exact List.mem_cons_of_mem _ (List.mem_cons_of_mem _ h)

theorem foldl_pickMin_le :
    ∀ (xs : List (PhysicalDevice × Nat)) (x y : PhysicalDevice × Nat),
      y ∈ x :: xs →
      deviceTypeRank (xs.foldl pickMin x).1.deviceType ≤
        deviceTypeRank y.1.deviceType
  | [], x, y, hy => by
    rw [List.mem_singleton.mp hy]
    exact le_refl _
  | z :: zs, x, y, hy => by
    simp only [List.foldl_cons]
    have hhead :
        deviceTypeRank ((z :: zs).foldl pickMin x).1.deviceType ≤
          deviceTypeRank (pickMin x z).1.deviceType := by
      simp only [List.foldl_cons]
      exact foldl_pickMin_le zs (pickMin x z) (pickMin x z)
        (List.mem_cons_self _ _)
    rcases List.mem_cons.mp hy with h | h
    · subst h
      refine le_trans (by simpa using hhead) ?_
      unfold pickMin
      split
      · omega
      · exact le_refl _
    · rcases List.mem_cons.mp h with h | h
      · subst h
        refine le_trans (by simpa using hhead) ?_
        unfold pickMin
        split
        · exact le_refl _
        · omega
      · exact foldl_pickMin_le zs (pickMin x z) y (List.mem_cons_of_mem _ h)

/-! ## Claims -/

/-- C1: for every extent (W,H) with W > 0 and H > 0, a successful
`Renderer::run` dispatches exactly the W×H×1 workgroup grid and presents the
frame, and the dispatched kernel writes the color `(x/W, y/H, 0)` at every
pixel `(x,y)` with `x < W`, `y < H`; in particular for (W,H) = (4,2) the
pixel at (2,1) is exactly (0.5, 0.5, 0). -/
theorem presented_image_gradient {r : Renderer} {W H idx : Nat}
    {subopt : Bool} {rec : RecreateResult} {r' : Renderer} {eff : RunEffects}
    (hW : 0 < W) (hH : 0 < H)
    (h : r.run (W, H) (AcquireResult.ok idx subopt) rec FlushResult.ok =
      Except.ok (r', eff)) :
    eff.presents = 1 ∧
    eff.dispatchedGrid = Option.some ⟨W, H, 1⟩ ∧
    (∀ x y, x < W → y < H →
      dispatchImage ⟨W, H, 1⟩ x y =
        ((x : ℚ) / ((W : Nat) : ℚ), (y : ℚ) / ((H : Nat) : ℚ), 0)) ∧
    dispatchImage ⟨4, 2, 1⟩ 2 1 = (1/2, 1/2, 0) := by
  obtain ⟨-, r₁, hreb, hcase⟩ := run_ok_elim h
  rcases hcase with ⟨hcontra, -, -⟩ | ⟨idx', subopt', -, -, -, heff⟩
  · exact AcquireResult.noConfusion hcontra
  · refine ⟨?_, ?_, ?_, ?_⟩
    · rw [heff]
      exact (submitAndPresent_effects _ _ _ _).2.1
    · rw [heff]
      exact (submitAndPresent_effects _ _ _ _).2.2
    · intro x y hx hy
      rfl
    · norm_num [dispatchImage, shaderMain]

/-- C1 witness: the theorem instantiated at the 4×2 run of `sampleRenderer`
that acquires image 1 cleanly and flushes successfully. -/
theorem presented_image_gradient_witness :
    presentedEffects.presents = 1 ∧
    presentedEffects.dispatchedGrid = Option.some ⟨4, 2, 1⟩ ∧
    (∀ x y, x < 4 → y < 2 →
      dispatchImage ⟨4, 2, 1⟩ x y =
        ((x : ℚ) / ((4 : Nat) : ℚ), (y : ℚ) / ((2 : Nat) : ℚ), 0)) ∧
    dispatchImage ⟨4, 2, 1⟩ 2 1 = (1/2, 1/2, 0) :=
  presented_image_gradient (by decide) (by decide)
    (rfl :
      sampleRenderer.run (4, 2) (AcquireResult.ok 1 false) RecreateResult.ok
        FlushResult.ok = Except.ok (presentedRenderer, presentedEffects))

/-- C3: an iteration of `Renderer::run` whose acquisition reports
out-of-date submits nothing, presents nothing, and returns with the
`recreate_swapchain` flag set. -/
theorem stale_acquire_no_submission {r : Renderer} {e : Nat × Nat}
    {rec : RecreateResult} {f : FlushResult} {r' : Renderer} {eff : RunEffects}
    (h : r.run e AcquireResult.outOfDate rec f = Except.ok (r', eff)) :
    eff.submissions = 0 ∧ eff.presents = 0 ∧ r'.recreate_swapchain = true := by
  obtain ⟨-, r₁, hreb, hcase⟩ := run_ok_elim h
  rcases hcase with ⟨-, hr', heff⟩ | ⟨idx, subopt, hcontra, -, -, -⟩
  · subst hr'
    subst heff
    exact ⟨rfl, rfl, rfl⟩
  · exact AcquireResult.noConfusion hcontra

/-- C3 witness: a stale acquisition on `sampleRenderer`. -/
theorem stale_acquire_no_submission_witness :
    RunEffects.none.submissions = 0 ∧ RunEffects.none.presents = 0 ∧
    dirtyRenderer.recreate_swapchain = true :=
  stale_acquire_no_submission
    (rfl :
      sampleRenderer.run (4, 2) AcquireResult.outOfDate RecreateResult.ok
        FlushResult.ok = Except.ok (dirtyRenderer, RunEffects.none))

/-- C4: at most one in-flight token exists per renderer: `tokens` counts the
`previous_frame_end` future, any renderer holds at most one, a run that
returns held exactly one on entry (the prior token is consumed before a new
one is produced), and exactly one on return. -/
theorem single_inflight_token {r : Renderer} {e : Nat × Nat}
    {a : AcquireResult} {rec : RecreateResult} {f : FlushResult}
    {r' : Renderer} {eff : RunEffects}
    (h : r.run e a rec f = Except.ok (r', eff)) :
    r.tokens = 1 ∧ r'.tokens = 1 ∧ ∀ s : Renderer, s.tokens ≤ 1 := by
  obtain ⟨hprev, r₁, hreb, hcase⟩ := run_ok_elim h
  have htok : ∀ s : Renderer, s.tokens ≤ 1 := by
    intro s
    unfold Renderer.tokens
    split <;> omega
  refine ⟨tokens_of_isSome hprev, ?_, htok⟩
  rcases hcase with ⟨-, hr', -⟩ | ⟨idx, subopt, -, -, hr', -⟩
  · subst hr'
    apply tokens_of_isSome
    show r₁.previous_frame_end.isSome = true
    rw [rebuildIfDirty_ok_prev hreb]
    exact hprev
  · rw [hr']
    exact tokens_of_isSome (submitAndPresent_state _ _ _ _).2.1

/-- C4 witness: one clean 4×2 frame on `sampleRenderer`. -/
theorem single_inflight_token_witness :
    sampleRenderer.tokens = 1 ∧ presentedRenderer.tokens = 1 ∧
    ∀ s : Renderer, s.tokens ≤ 1 :=
  single_inflight_token
    (rfl :
      sampleRenderer.run (4, 2) (AcquireResult.ok 1 false) RecreateResult.ok
        FlushResult.ok = Except.ok (presentedRenderer, presentedEffects))

/-- C6: when either component of the window extent is zero, the redraw
handler returns without touching the renderer: no submission, no present,
and the renderer state (hence the `recreate_swapchain` flag) is unchanged. -/
theorem zero_extent_noop {r : Renderer} {e : Nat × Nat} {a : AcquireResult}
    {rec : RecreateResult} {f : FlushResult} (h : e.1 = 0 ∨ e.2 = 0) :
    handleRedraw r e a rec f = Except.ok (r, RunEffects.none) ∧
    RunEffects.none.submissions = 0 ∧ RunEffects.none.presents = 0 := by
  refine ⟨?_, rfl, rfl⟩
  unfold handleRedraw
  rw [if_pos h]

/-- C6 witness: a redraw at extent (0, 5). -/
theorem zero_extent_noop_witness :
    handleRedraw sampleRenderer (0, 5) (AcquireResult.ok 0 false)
      RecreateResult.ok FlushResult.ok =
      Except.ok (sampleRenderer, RunEffects.none) ∧
    RunEffects.none.submissions = 0 ∧ RunEffects.none.presents = 0 :=
  zero_extent_noop (Or.inl rfl)

/-- C7: an iteration of `Renderer::run` whose acquisition succeeds but
reports suboptimal still submits its dispatch and requests present, and
returns with the `recreate_swapchain` flag set. -/
theorem suboptimal_still_presents {r : Renderer} {e : Nat × Nat} {idx : Nat}
    {rec : RecreateResult} {f : FlushResult} {r' : Renderer} {eff : RunEffects}
    (h : r.run e (AcquireResult.ok idx true) rec f = Except.ok (r', eff)) :
    eff.submissions = 1 ∧ eff.presents = 1 ∧ r'.recreate_swapchain = true := by
  obtain ⟨-, r₁, hreb, hcase⟩ := run_ok_elim h
  rcases hcase with ⟨hcontra, -, -⟩ | ⟨idx', subopt', heq, -, hr', heff⟩
  · exact AcquireResult.noConfusion hcontra
  · injection heq with h1 h2
    subst h1
    rw [← h2] at hr'
    simp only [if_true] at hr'
    refine ⟨?_, ?_, ?_⟩
    · rw [heff]
      exact (submitAndPresent_effects _ _ _ _).1
    · rw [heff]
      exact (submitAndPresent_effects _ _ _ _).2.1
    · rw [hr']
      rw [(submitAndPresent_state _ _ _ _).2.2]
      exact Bool.true_or _

/-- C7 witness: a suboptimal 3×3 frame on `sampleRenderer`. -/
theorem suboptimal_still_presents_witness :
    suboptimalEffects.submissions = 1 ∧ suboptimalEffects.presents = 1 ∧
    suboptimalRenderer.recreate_swapchain = true :=
  suboptimal_still_presents
    (rfl :
      sampleRenderer.run (3, 3) (AcquireResult.ok 0 true) RecreateResult.ok
        FlushResult.ok = Except.ok (suboptimalRenderer, suboptimalEffects))

/-- C9: `previous_frame_end` is `Some` immediately after `Renderer::new`;
whenever it is `Some` on entry, the unwrap at the start of `Renderer::run`
cannot be the panic that fires, and it is `Some` again after every
non-panicking branch of `Renderer::run`. -/
theorem previous_frame_end_total {ie : Nat × Nat} {sm ni : Nat}
    {r : Renderer} {e : Nat × Nat} {a : AcquireResult} {rec : RecreateResult}
    {f : FlushResult} (hprev : r.previous_frame_end.isSome = true) :
    (Renderer.new ie sm ni).previous_frame_end.isSome = true ∧
    r.run e a rec f ≠
      Except.error "called `Option::unwrap()` on a `None` value" ∧
    ∀ r' eff, r.run e a rec f = Except.ok (r', eff) →
      r'.previous_frame_end.isSome = true := by
  refine ⟨rfl, ?_, ?_⟩
  · obtain ⟨p, hp⟩ := Option.isSome_iff_exists.mp hprev
    unfold Renderer.run
    rw [hp]
    cases hreb : r.rebuildIfDirty e rec with
    | error msg =>
      have hmsg := rebuildIfDirty_error_msg hreb
      subst hmsg
      intro hcontra
      exact absurd (Except.error.inj hcontra) (by decide)
    | ok r₁ =>
      cases a with
      | outOfDate => exact fun hcontra => Except.noConfusion hcontra
      | otherErr =>
        intro hcontra
        exact absurd (Except.error.inj hcontra) (by decide)
      | ok idx subopt =>
        dsimp only
        by_cases hidx :
            idx < (if subopt = true then { r₁ with recreate_swapchain := true }
                   else r₁).numImages
        · rw [if_pos hidx]
          exact fun hcontra => Except.noConfusion hcontra
        · rw [if_neg hidx]
          intro hcontra
          exact absurd (Except.error.inj hcontra) (by decide)
  · intro r' eff h
    obtain ⟨-, r₁, hreb, hcase⟩ := run_ok_elim h
    rcases hcase with ⟨-, hr', -⟩ | ⟨idx, subopt, -, -, hr', -⟩
    · subst hr'
      show r₁.previous_frame_end.isSome = true
      rw [rebuildIfDirty_ok_prev hreb]
      exact hprev
    · rw [hr']
      exact (submitAndPresent_state _ _ _ _).2.1

/-- C9 witness: the property instantiated at `sampleRenderer` and a clean
4×2 redraw. -/
theorem previous_frame_end_total_witness :
    (Renderer.new (3, 3) 2 3).previous_frame_end.isSome = true ∧
    sampleRenderer.run (4, 2) (AcquireResult.ok 1 false) RecreateResult.ok
        FlushResult.ok ≠
      Except.error "called `Option::unwrap()` on a `None` value" ∧
    ∀ r' eff,
      sampleRenderer.run (4, 2) (AcquireResult.ok 1 false) RecreateResult.ok
          FlushResult.ok = Except.ok (r', eff) →
        r'.previous_frame_end.isSome = true :=
  previous_frame_end_total (by decide)

/-- C10: every swapchain rebuild inside `Renderer::run` carries the
minimum image count, image format, image usage and composite alpha over
unchanged from the previous generation's create info, changing only the
image extent; and `Renderer::new` creates the first generation with format
`B8G8R8A8_UNORM`, `STORAGE` usage, `Opaque` composite alpha and
`max surface_min_image_count 2` images. -/
theorem rebuild_preserves_create_info {r : Renderer} {e : Nat × Nat}
    {a : AcquireResult} {rec : RecreateResult} {f : FlushResult}
    {r' : Renderer} {eff : RunEffects}
    (h : r.run e a rec f = Except.ok (r', eff)) :
    (r'.swapchain.info.min_image_count = r.swapchain.info.min_image_count ∧
     r'.swapchain.info.image_format = r.swapchain.info.image_format ∧
     r'.swapchain.info.image_usage = r.swapchain.info.image_usage ∧
     r'.swapchain.info.composite_alpha = r.swapchain.info.composite_alpha) ∧
    (r.recreate_swapchain = true → r'.swapchain.info.image_extent = e) ∧
    ∀ ie sm ni,
      (Renderer.new ie sm ni).swapchain.info.image_format =
          Format.B8G8R8A8_UNORM ∧
      (Renderer.new ie sm ni).swapchain.info.image_usage =
          ImageUsage.STORAGE ∧
      (Renderer.new ie sm ni).swapchain.info.composite_alpha =
          CompositeAlpha.Opaque ∧
      (Renderer.new ie sm ni).swapchain.info.min_image_count = max sm 2 := by
  obtain ⟨-, r₁, hreb, hcase⟩ := run_ok_elim h
  have hsw : r'.swapchain = r₁.swapchain := by
    rcases hcase with ⟨-, hr', -⟩ | ⟨idx, subopt, -, -, hr', -⟩
    · subst hr'
      rfl
    · rw [hr']
      rw [(submitAndPresent_state _ _ _ _).1]
      cases subopt <;> rfl
  refine ⟨?_, ?_, fun ie sm ni => ⟨rfl, rfl, rfl, rfl⟩⟩
  · rw [hsw]
    exact rebuildIfDirty_ok_info hreb
  · intro hd
    rw [hsw]
    exact (rebuildIfDirty_dirty_ok hd hreb).1

/-- C10 witness: a redraw of the dirty `sampleRenderer` at extent 7×5. -/
theorem rebuild_preserves_create_info_witness :
    (rebuiltRenderer.swapchain.info.min_image_count =
        dirtyRenderer.swapchain.info.min_image_count ∧
     rebuiltRenderer.swapchain.info.image_format =
        dirtyRenderer.swapchain.info.image_format ∧
     rebuiltRenderer.swapchain.info.image_usage =
        dirtyRenderer.swapchain.info.image_usage ∧
     rebuiltRenderer.swapchain.info.composite_alpha =
        dirtyRenderer.swapchain.info.composite_alpha) ∧
    (dirtyRenderer.recreate_swapchain = true →
      rebuiltRenderer.swapchain.info.image_extent = (7, 5)) ∧
    ∀ ie sm ni,
      (Renderer.new ie sm ni).swapchain.info.image_format =
          Format.B8G8R8A8_UNORM ∧
      (Renderer.new ie sm ni).swapchain.info.image_usage =
          ImageUsage.STORAGE ∧
      (Renderer.new ie sm ni).swapchain.info.composite_alpha =
          CompositeAlpha.Opaque ∧
      (Renderer.new ie sm ni).swapchain.info.min_image_count = max sm 2 :=
  rebuild_preserves_create_info
    (rfl :
      dirtyRenderer.run (7, 5) (AcquireResult.ok 0 false) RecreateResult.ok
        FlushResult.ok = Except.ok (rebuiltRenderer, rebuiltEffects))

/-- C5 counterexample: after `recreate_swapchain(true)` and one
`Renderer::run` at extent (4,2) whose acquisition reports out-of-date, the
swapchain extent does equal (4,2) but `recreate_swapchain` is `true` again
at return, not clear as the claim states. -/
theorem mark_dirty_redraw_flag_counterexample :
    ((sampleRenderer.setRecreateSwapchain true).run (4, 2)
        AcquireResult.outOfDate RecreateResult.ok FlushResult.ok).map
      (fun p => (p.1.swapchain.info.image_extent, p.1.recreate_swapchain)) =
      Except.ok ((4, 2), true) := rfl

/-- C5 amended: after `recreate_swapchain(true)` and one non-panicking
`Renderer::run` at `e`, the swapchain extent equals `e`; the
`recreate_swapchain` flag is clear at return provided that same iteration
did not re-mark it, i.e. acquisition succeeded without suboptimal and the
flush did not report out-of-date. -/
theorem mark_dirty_redraw_rebuilds {r r' : Renderer} {e : Nat × Nat}
    {a : AcquireResult} {rec : RecreateResult} {f : FlushResult}
    {eff : RunEffects}
    (h : (r.setRecreateSwapchain true).run e a rec f = Except.ok (r', eff)) :
    r'.swapchain.info.image_extent = e ∧
    ∀ idx, a = AcquireResult.ok idx false → f ≠ FlushResult.outOfDate →
      r'.recreate_swapchain = false := by
  obtain ⟨-, r₁, hreb, hcase⟩ := run_ok_elim h
  have hd : (r.setRecreateSwapchain true).recreate_swapchain = true := rfl
  have hre := rebuildIfDirty_dirty_ok hd hreb
  constructor
  · have hsw : r'.swapchain = r₁.swapchain := by
      rcases hcase with ⟨-, hr', -⟩ | ⟨idx, subopt, -, -, hr', -⟩
      · subst hr'
        rfl
      · rw [hr']
        rw [(submitAndPresent_state _ _ _ _).1]
        cases subopt <;> rfl
    rw [hsw]
    exact hre.1
  · intro idx hacq hf
    rcases hcase with ⟨hcontra, -, -⟩ | ⟨idx', subopt', heq, -, hr', -⟩
    · rw [hacq] at hcontra
      exact AcquireResult.noConfusion hcontra
    · rw [hacq] at heq
      injection heq with h1 h2
      rw [← h2] at hr'
      simp only [Bool.false_eq_true, if_false] at hr'
      rw [hr']
      rw [(submitAndPresent_state _ _ _ _).2.2]
      rw [hre.2]
      rw [Bool.false_or]
      exact decide_eq_false hf

/-- C5 amended witness: the dirty `sampleRenderer` redrawn at 7×5 with a
clean acquire and flush. -/
theorem mark_dirty_redraw_rebuilds_witness :
    rebuiltRenderer.swapchain.info.image_extent = (7, 5) ∧
    ∀ idx, AcquireResult.ok 0 false = AcquireResult.ok idx false →
      FlushResult.ok ≠ FlushResult.outOfDate →
      rebuiltRenderer.recreate_swapchain = false :=
  mark_dirty_redraw_rebuilds
    (rfl :
      (sampleRenderer.setRecreateSwapchain true).run (7, 5)
        (AcquireResult.ok 0 false) RecreateResult.ok FlushResult.ok =
        Except.ok (rebuiltRenderer, rebuiltEffects))

/-- C2 counterexample: a flush (submission/present) error other than
out-of-date does not abort: the call returns normally, only printing a
diagnostic. -/
theorem flush_error_not_fatal_counterexample :
    aborts (sampleRenderer.run (3, 3) (AcquireResult.ok 0 false)
      RecreateResult.ok FlushResult.otherErr) = false ∧
    (sampleRenderer.run (3, 3) (AcquireResult.ok 0 false) RecreateResult.ok
        FlushResult.otherErr).map (fun p => p.2.logs) =
      Except.ok ["failed to flush future"] := ⟨rfl, rfl⟩

/-- C2 amended: an acquisition error other than out-of-date aborts the
process with a diagnostic; a submission/present (flush) error other than
out-of-date does not abort — the renderer prints a diagnostic, replaces
`previous_frame_end` with a fresh now-future, and continues to the next
frame with its one submission and present request already chained. -/
theorem error_policy {r : Renderer} {e : Nat × Nat} {rec : RecreateResult}
    {f : FlushResult} {idx : Nat} {s : Bool}
    (hprev : r.previous_frame_end.isSome = true) :
    aborts (r.run e AcquireResult.otherErr rec f) = true ∧
    ∀ r' eff,
      r.run e (AcquireResult.ok idx s) rec FlushResult.otherErr =
        Except.ok (r', eff) →
      r'.previous_frame_end = Option.some GpuFut.nowFut ∧
      eff.logs = ["failed to flush future"] ∧ eff.submissions = 1 := by
  constructor
  · obtain ⟨p, hp⟩ := Option.isSome_iff_exists.mp hprev
    unfold Renderer.run aborts
    rw [hp]
    cases hreb : r.rebuildIfDirty e rec
    · rfl
    · rfl
  · intro r' eff h
    obtain ⟨-, r₁, hreb, hcase⟩ := run_ok_elim h
    rcases hcase with ⟨hcontra, -, -⟩ | ⟨idx', s', heq, -, hr', heff⟩
    · exact AcquireResult.noConfusion hcontra
    · refine ⟨?_, ?_, ?_⟩
      · rw [hr']
        cases s' <;> rfl
      · rw [heff]
        cases s' <;> rfl
      · rw [heff]
        cases s' <;> rfl

/-- C2 amended witness: a fatal acquire error and an absorbed flush error on
`sampleRenderer`. -/
theorem error_policy_witness :
    aborts (sampleRenderer.run (3, 3) AcquireResult.otherErr RecreateResult.ok
      FlushResult.ok) = true ∧
    ∀ r' eff,
      sampleRenderer.run (3, 3) (AcquireResult.ok 0 false) RecreateResult.ok
          FlushResult.otherErr = Except.ok (r', eff) →
      r'.previous_frame_end = Option.some GpuFut.nowFut ∧
      eff.logs = ["failed to flush future"] ∧ eff.submissions = 1 :=
  error_policy (by decide)

/-- C8: whenever the selection pipeline of `Renderer::new` returns a device,
that device is among the qualifying ones (required extensions plus a queue
family with compute and presentation support) and its device type is minimal
in the order discrete < integrated < virtual < CPU < other. -/
theorem device_selection_minimal {devices : List PhysicalDevice}
    {p : PhysicalDevice} {i : Nat}
    (h : selectPhysicalDevice devices = Option.some (p, i)) :
    (p, i) ∈ qualifyingDevices devices ∧
    ∀ q ∈ qualifyingDevices devices,
      deviceTypeRank p.deviceType ≤ deviceTypeRank q.1.deviceType := by
  unfold selectPhysicalDevice minByDeviceRank at h
  cases hq : qualifyingDevices devices with
  | nil =>
    rw [hq] at h
    exact Option.noConfusion h
  | cons x xs =>
    rw [hq] at h
    simp only [Option.some.injEq] at h
    constructor
    · rw [← h]
      exact foldl_pickMin_mem xs x
    · intro q hqmem
      have h1 : (xs.foldl pickMin x).1 = p := congrArg Prod.fst h
      rw [← h1]
      exact foldl_pickMin_le xs x q hqmem

/-- C8 witness: among `sampleDevices` the qualifying discrete GPU is chosen
(with queue family 1) over the qualifying CPU device. -/
theorem device_selection_minimal_witness :
    (sampleSelected, 1) ∈ qualifyingDevices sampleDevices ∧
    ∀ q ∈ qualifyingDevices sampleDevices,
      deviceTypeRank sampleSelected.deviceType ≤
        deviceTypeRank q.1.deviceType :=
  device_selection_minimal (by decide)

end DotEngine
